import Mathlib

/-!
Shallow embedding of the Bugify bug-tracker backend
(`backend/app`: `models.py`, `schemas.py`, `routers/auth.py`, `routers/bugs.py`,
`routers/dashboard.py`, `routers/manage.py`, `routers/mybugs.py`,
`routers/profile.py`, `routers/projects.py`).

The MongoDB collections are embedded as Lean lists kept in insertion order:
`find_one(q)` is `List.find?` (first match), `update_one(q, {$set: ...})`
rewrites the first match, `delete_one(q)` removes the first match,
`count_documents(q)` counts matches, `insert_one` appends, and
`find_one(sort=[("id", -1)])` returns a document of maximal `id`.
Each HTTP handler becomes a function from the database value (plus the
request payload, the authenticated user resolved by the token dependency, and
the current instant, passed explicitly) to a response together with the new
database value; `raise HTTPException` becomes an error response paired with
the unchanged database, since every raise in these handlers happens before
any write.  bcrypt and JWT signing are out-of-scope primitives consumed as
black boxes; they are modelled deterministically below.  Python's
`str.lower()` is modelled on the basic-latin letters, which is the range
Lean's `Char.toLower` handles.
-/

namespace Bugify

/-- `role: Literal["admin", "developer", "user"]` from `models.py`. -/
inductive Role
  | admin
  | developer
  | user
deriving DecidableEq, Repr

/-- `status: Literal["Open", "In Progress", "Resolved", "Closed"]` from `models.py`. -/
inductive Status
  | Open
  | InProgress
  | Resolved
  | Closed
deriving DecidableEq, Repr

/-- `priority: Literal["High", "Medium", "Low"]` from `models.py`. -/
inductive Priority
  | High
  | Medium
  | Low
deriving DecidableEq, Repr

/-- The string stored in Mongo for a role (used to build generated user ids). -/
def Role.str : Role → String
  | .admin => "admin"
  | .developer => "developer"
  | .user => "user"

/-- The string stored in Mongo for a status (used by string-valued query filters). -/
def Status.str : Status → String
  | .Open => "Open"
  | .InProgress => "In Progress"
  | .Resolved => "Resolved"
  | .Closed => "Closed"

/-- `class User` from `models.py`. -/
structure User where
  id : String
  name : String
  email : String
  hashed_password : String
  role : Role
  joined_date : String
deriving DecidableEq, Repr

/-- `class Project` from `models.py` (`description` added by `create_project`). -/
structure Project where
  id : Nat
  name : String
  description : String
  created_by : String
  created_at : String
deriving DecidableEq, Repr

/-- `class Bug` from `models.py`. -/
structure Bug where
  id : Nat
  project_id : Nat
  project_name : String
  title : String
  description : String
  status : Status
  priority : Priority
  reported_by : String
  assigned_to : Option String
  created_at : String
  updated_at : String
deriving DecidableEq, Repr

/-- The three MongoDB collections (`users`, `projects`, `bugs`), in insertion order. -/
structure AppDB where
  users : List User
  projects : List Project
  bugs : List Bug
deriving DecidableEq, Repr

/-- `raise HTTPException(status_code, detail)` outcomes, by status code, plus the
422 a pydantic validator produces and the 500 an unreachable refetch miss
would produce. -/
inductive Err
  | badRequest (detail : String)
  | unauthorized (detail : String)
  | forbidden (detail : String)
  | notFound (detail : String)
  | validationError (detail : String)
  | internal
deriving DecidableEq, Repr

instance {ε α : Type} [DecidableEq ε] [DecidableEq α] : DecidableEq (Except ε α) := fun x y =>
  match x, y with
  | .ok a, .ok b =>
    if h : a = b then .isTrue (congrArg Except.ok h)
    else .isFalse (fun hc => h (Except.ok.inj hc))
  | .error a, .error b =>
    if h : a = b then .isTrue (congrArg Except.error h)
    else .isFalse (fun hc => h (Except.error.inj hc))
  | .ok _, .error _ => .isFalse (fun hc => Except.noConfusion hc)
  | .error _, .ok _ => .isFalse (fun hc => Except.noConfusion hc)

/-- Python `s.lower()`, on the basic-latin letters that `Char.toLower` covers. -/
def lower (s : String) : String := ⟨s.data.map Char.toLower⟩

/-- `get_password_hash` from `utils/auth_helpers.py`.  bcrypt is an external
primitive (spec treats it as the black box `hash(password) -> digest`); it is
modelled as a deterministic injective digest. -/
def get_password_hash (password : String) : String := "$2b$12$" ++ password

/-- `verify_password` from `utils/auth_helpers.py`, modelled as the exact
inverse of the modelled `get_password_hash`: `verify(p, d)` holds iff `d` is
the digest of `p`. -/
def verify_password (plain_password hashed_password : String) : Bool :=
  hashed_password == get_password_hash plain_password

/-- `update_one(q, {$set: ...})`: rewrite the first document matching `p` by `f`. -/
def updateFirst (p : α → Bool) (f : α → α) : List α → List α
  | [] => []
  | x :: xs => if p x then f x :: xs else x :: updateFirst p f xs

/-- `delete_one(q)`: remove the first document matching `p`. -/
def eraseFirst (p : α → Bool) : List α → List α
  | [] => []
  | x :: xs => if p x then xs else x :: eraseFirst p xs

/-- `count_documents(q)`. -/
def countDocs (p : α → Bool) (xs : List α) : Nat := (xs.filter p).length

/-- `find_one(sort=[("id", -1)])` over the bugs collection: a bug of maximal id. -/
def latestBug : List Bug → Option Bug
  | [] => none
  | b :: bs =>
    match latestBug bs with
    | none => some b
    | some m => if b.id ≥ m.id then some b else some m

/-- The maximum of the ids in a bug collection (`0` when it is empty). -/
def maxBugId (bs : List Bug) : Nat := bs.foldr (fun b acc => max b.id acc) 0

/-- Python truthiness of an `Optional[str]` field: `None` and `""` are falsy. -/
def strTruthy : Option String → Bool
  | some s => s ≠ ""
  | none => false

/-- Python truthiness of an `Optional[int]` field: `None` and `0` are falsy. -/
def natTruthy : Option Nat → Bool
  | some n => n ≠ 0
  | none => false

/-- `class UserRegister` from `schemas.py`. -/
structure UserRegister where
  name : String
  email : String
  password : String
  confirm_password : String
  role : Role
deriving DecidableEq, Repr

/-- The pydantic validation of `UserRegister` (field length bounds and the
`passwords_match` validator; the `EmailStr` format check is not modelled). -/
def UserRegister.valid (r : UserRegister) : Bool :=
  2 ≤ r.name.length && r.name.length ≤ 100 &&
  6 ≤ r.password.length && r.password.length ≤ 100 &&
  6 ≤ r.confirm_password.length && r.confirm_password.length ≤ 100 &&
  r.confirm_password == r.password

/-- `class UserLogin` from `schemas.py`. -/
structure UserLogin where
  email : String
  password : String
  role : Role
deriving DecidableEq, Repr

/-- `class UserResponse` from `schemas.py` (user without the password digest). -/
structure UserResponse where
  id : String
  name : String
  email : String
  role : Role
  joined_date : String
deriving DecidableEq, Repr

/-- Build a `UserResponse` from a stored user document, as the handlers do. -/
def userResponse (u : User) : UserResponse :=
  { id := u.id, name := u.name, email := u.email, role := u.role,
    joined_date := u.joined_date }

/-- `create_access_token` claims.  JWT signing is an out-of-scope primitive
(`sign(claims, expiry) -> token`); the token is modelled by its claims. -/
structure AccessToken where
  sub : String
  role : Role
deriving DecidableEq, Repr

/-- `class Token` from `schemas.py`. -/
structure Token where
  access_token : AccessToken
  token_type : String
  user : UserResponse
deriving DecidableEq, Repr

/-- `register` from `routers/auth.py` (POST /auth/register), behind the
pydantic validation of `UserRegister`.  `nowTs` is `int(datetime.now().timestamp())`
and `nowDate` is `datetime.now().strftime("%Y-%m-%d")` at the handling instant. -/
def register (db : AppDB) (nowTs : Nat) (nowDate : String) (user_data : UserRegister) :
    Except Err UserResponse × AppDB :=
  if !user_data.valid then (.error (.validationError "Passwords do not match"), db)
  else
    match db.users.find? (fun u => u.email == lower user_data.email) with
    | some _ => (.error (.badRequest "Email already registered"), db)
    | none =>
      let new_user : User :=
        { id := user_data.role.str ++ toString nowTs,
          name := user_data.name,
          email := lower user_data.email,
          hashed_password := get_password_hash user_data.password,
          role := user_data.role,
          joined_date := nowDate }
      (.ok (userResponse new_user), { db with users := db.users ++ [new_user] })

/-- `login` from `routers/auth.py` (POST /auth/login).  Reads the store and
never writes it. -/
def login (db : AppDB) (credentials : UserLogin) : Except Err Token :=
  match db.users.find?
      (fun u => u.email == lower credentials.email && decide (u.role = credentials.role)) with
  | none => .error (.unauthorized "Invalid email, password, or role")
  | some user =>
    if !verify_password credentials.password user.hashed_password then
      .error (.unauthorized "Invalid email, password, or role")
    else
      .ok { access_token := { sub := user.email, role := user.role },
            token_type := "bearer",
            user := userResponse user }

/-- `class BugCreate` from `schemas.py`. -/
structure BugCreate where
  project_id : Nat
  title : String
  description : String
  priority : Priority
deriving DecidableEq, Repr

/-- The pydantic validation of `BugCreate` (field length bounds). -/
def BugCreate.valid (b : BugCreate) : Bool :=
  3 ≤ b.title.length && b.title.length ≤ 100 &&
  10 ≤ b.description.length && b.description.length ≤ 1000

/-- `class BugUpdate` from `schemas.py` (partial update payload). -/
structure BugUpdate where
  status : Option Status
  assigned_to : Option String
  priority : Option Priority
deriving DecidableEq, Repr

/-- `class BugAssignment` from `schemas.py`. -/
structure BugAssignment where
  assigned_to : Option String
deriving DecidableEq, Repr

/-- `class BugStatusUpdate` from `schemas.py`. -/
structure BugStatusUpdate where
  status : Status
deriving DecidableEq, Repr

/-- `create_bug` from `routers/bugs.py` (POST /bugs), behind the pydantic
validation of `BugCreate`.  `now` is `datetime.utcnow().isoformat() + "Z"`. -/
def create_bug (db : AppDB) (now : String) (bug_data : BugCreate) (current_user : User) :
    Except Err Bug × AppDB :=
  if !bug_data.valid then (.error (.validationError "Invalid bug payload"), db)
  else
    match db.projects.find? (fun p => p.id == bug_data.project_id) with
    | none => (.error (.notFound "Project not found"), db)
    | some project =>
      let next_id :=
        match latestBug db.bugs with
        | some latest => latest.id + 1
        | none => 1
      let new_bug : Bug :=
        { id := next_id,
          project_id := bug_data.project_id,
          project_name := project.name,
          title := bug_data.title,
          description := bug_data.description,
          status := .Open,
          priority := bug_data.priority,
          reported_by := current_user.id,
          assigned_to := none,
          created_at := now,
          updated_at := now }
      (.ok new_bug, { db with bugs := db.bugs ++ [new_bug] })

/-- The `$set` document `update_bug` builds: always `updated_at`, and each of
`status`, `assigned_to`, `priority` only when present in the payload. -/
def applyBugUpdate (bug_update : BugUpdate) (now : String) (b : Bug) : Bug :=
  { b with
    updated_at := now,
    status := match bug_update.status with | some s => s | none => b.status,
    assigned_to := match bug_update.assigned_to with | some a => some a | none => b.assigned_to,
    priority := match bug_update.priority with | some p => p | none => b.priority }

/-- `update_bug` from `routers/bugs.py` (PUT /bugs/\x7bbug_id\x7d): find, deny
role `user`, `$set` the update document, refetch. -/
def update_bug (db : AppDB) (now : String) (bug_id : Nat) (bug_update : BugUpdate)
    (current_user : User) : Except Err Bug × AppDB :=
  match db.bugs.find? (fun b => b.id == bug_id) with
  | none => (.error (.notFound "Bug not found"), db)
  | some _ =>
    if decide (current_user.role = .user) then
      (.error (.forbidden "Users cannot update bugs"), db)
    else
      let bugs' := updateFirst (fun b => b.id == bug_id) (applyBugUpdate bug_update now) db.bugs
      match bugs'.find? (fun b => b.id == bug_id) with
      | some updated_bug => (.ok updated_bug, { db with bugs := bugs' })
      | none => (.error .internal, { db with bugs := bugs' })

/-- `assign_bug_to_developer` from `routers/manage.py`
(PUT /manage/bugs/\x7bbug_id\x7d/assign): admin only; when the payload's
`assigned_to` is truthy it must name an existing user with role developer;
then `$set` `assigned_to` and `updated_at` and refetch. -/
def assign_bug_to_developer (db : AppDB) (now : String) (bug_id : Nat)
    (assignment : BugAssignment) (current_user : User) : Except Err Bug × AppDB :=
  if !(decide (current_user.role = .admin)) then
    (.error (.forbidden "Only admins can assign bugs"), db)
  else
    match db.bugs.find? (fun b => b.id == bug_id) with
    | none => (.error (.notFound "Bug not found"), db)
    | some _ =>
      if strTruthy assignment.assigned_to &&
          !(db.users.find? (fun u =>
              decide (some u.id = assignment.assigned_to) &&
              decide (u.role = .developer))).isSome then
        (.error (.notFound "Developer not found"), db)
      else
        let bugs' := updateFirst (fun b => b.id == bug_id)
          (fun b => { b with assigned_to := assignment.assigned_to, updated_at := now }) db.bugs
        match bugs'.find? (fun b => b.id == bug_id) with
        | some updated_bug => (.ok updated_bug, { db with bugs := bugs' })
        | none => (.error .internal, { db with bugs := bugs' })

/-- `update_bug_status_admin` from `routers/manage.py`
(PUT /manage/bugs/\x7bbug_id\x7d/status): admin only. -/
def update_bug_status_admin (db : AppDB) (now : String) (bug_id : Nat)
    (status_update : BugStatusUpdate) (current_user : User) : Except Err Bug × AppDB :=
  if !(decide (current_user.role = .admin)) then
    (.error (.forbidden "Only admins can update bug status"), db)
  else
    match db.bugs.find? (fun b => b.id == bug_id) with
    | none => (.error (.notFound "Bug not found"), db)
    | some _ =>
      let bugs' := updateFirst (fun b => b.id == bug_id)
        (fun b => { b with status := status_update.status, updated_at := now }) db.bugs
      match bugs'.find? (fun b => b.id == bug_id) with
      | some updated_bug => (.ok updated_bug, { db with bugs := bugs' })
      | none => (.error .internal, { db with bugs := bugs' })

/-- `update_my_bug_status` from `routers/mybugs.py`
(PUT /mybugs/\x7bbug_id\x7d/status): developer only; the lookup filter is
`{"id": bug_id, "assigned_to": current_user["id"]}`, so a bug that exists but
is assigned elsewhere produces the same 404 as an absent id; the `$set`
filter is on `id` alone. -/
def update_my_bug_status (db : AppDB) (now : String) (bug_id : Nat)
    (status_update : BugStatusUpdate) (current_user : User) : Except Err Bug × AppDB :=
  if !(decide (current_user.role = .developer)) then
    (.error (.forbidden "Only developers can update bug status"), db)
  else
    match db.bugs.find?
        (fun b => b.id == bug_id && decide (b.assigned_to = some current_user.id)) with
    | none => (.error (.notFound "Bug not found or not assigned to you"), db)
    | some _ =>
      let bugs' := updateFirst (fun b => b.id == bug_id)
        (fun b => { b with status := status_update.status, updated_at := now }) db.bugs
      match bugs'.find? (fun b => b.id == bug_id) with
      | some updated_bug => (.ok updated_bug, { db with bugs := bugs' })
      | none => (.error .internal, { db with bugs := bugs' })

/-- The Mongo query `get_bugs` (routers/dashboard.py) builds: optional
`project_id` and `status` filters (with Python truthiness, and `status` given
as its stored string, `"all"` meaning no filter), plus `reported_by ==
current_user["id"]` exactly when the caller's role is `user`. -/
def dashboardBugQuery (project_id : Option Nat) (status : Option String)
    (current_user : User) (b : Bug) : Bool :=
  (match project_id with
   | some pid => if pid == 0 then true else b.project_id == pid
   | none => true) &&
  (match status with
   | some s => if s == "" || s == "all" then true else b.status.str == s
   | none => true) &&
  (if decide (current_user.role = .user) then b.reported_by == current_user.id else true)

/-- `get_bugs` from `routers/dashboard.py` (GET /dashboard/bugs). -/
def get_bugs (db : AppDB) (project_id : Option Nat) (status : Option String)
    (current_user : User) : List Bug :=
  db.bugs.filter (dashboardBugQuery project_id status current_user)

/-- The stats payload `get_dashboard_stats` returns. -/
structure DashboardStats where
  total : Nat
  open_bugs : Nat
  in_progress : Nat
  resolved : Nat
  closed : Nat
deriving DecidableEq, Repr

/-- `get_dashboard_stats` from `routers/dashboard.py` (GET /dashboard/stats):
the base query is `{"reported_by": current_user["id"]}` exactly when the
caller's role is `user`, and each count conjoins one status. -/
def get_dashboard_stats (db : AppDB) (current_user : User) : DashboardStats :=
  let base := fun (b : Bug) =>
    if decide (current_user.role = .user) then b.reported_by == current_user.id else true
  { total := countDocs base db.bugs,
    open_bugs := countDocs (fun b => base b && decide (b.status = .Open)) db.bugs,
    in_progress := countDocs (fun b => base b && decide (b.status = .InProgress)) db.bugs,
    resolved := countDocs (fun b => base b && decide (b.status = .Resolved)) db.bugs,
    closed := countDocs (fun b => base b && decide (b.status = .Closed)) db.bugs }

/-- `delete_project` from `routers/projects.py` (DELETE /projects/\x7bproject_id\x7d):
admin only, 404 when absent, refused with the dependent-bug count when
`count_documents({"project_id": project_id}) > 0`, otherwise `delete_one`.
The success value is the `deleted_count` of the response (the quoted-name
message string is not modelled). -/
def delete_project (db : AppDB) (project_id : Nat) (current_user : User) :
    Except Err Nat × AppDB :=
  if !(decide (current_user.role = .admin)) then
    (.error (.forbidden "Only admins can delete projects"), db)
  else
    match db.projects.find? (fun p => p.id == project_id) with
    | none => (.error (.notFound "Project not found"), db)
    | some _ =>
      let bug_count := countDocs (fun b => b.project_id == project_id) db.bugs
      if bug_count > 0 then
        (.error (.badRequest ("Cannot delete project. It has " ++ toString bug_count ++
          " bug(s). Please delete or reassign the bugs first.")), db)
      else
        (.ok 1, { db with projects := eraseFirst (fun p => p.id == project_id) db.projects })

/-- `class ProfileUpdate` from `schemas.py`. -/
structure ProfileUpdate where
  name : Option String
  email : Option String
deriving DecidableEq, Repr

/-- The `$set` document `update_my_profile` builds for the caller's user
document: the truthy fields only, with the email lower-cased. -/
def applyProfileUpdate (profile_update : ProfileUpdate) (u : User) : User :=
  let u1 : User :=
    if strTruthy profile_update.name then { u with name := profile_update.name.getD "" } else u
  if strTruthy profile_update.email then
    { u1 with email := lower (profile_update.email.getD "") }
  else u1

/-- `update_my_profile` from `routers/profile.py` (PUT /profile/me): when the
payload's `email` is truthy, reject if another user (different id) already
stores its lower-cased form; `$set` the truthy fields (email lower-cased) on
the caller's document; reject when neither field is truthy; refetch. -/
def update_my_profile (db : AppDB) (profile_update : ProfileUpdate) (current_user : User) :
    Except Err User × AppDB :=
  let emailTaken :=
    match profile_update.email with
    | some e => e ≠ "" &&
        (db.users.find? (fun (u : User) => u.email == lower e && u.id != current_user.id)).isSome
    | none => false
  if emailTaken then
    (.error (.badRequest "Email is already taken by another user"), db)
  else
    let setsName := strTruthy profile_update.name
    let setsEmail := strTruthy profile_update.email
    if !setsName && !setsEmail then
      (.error (.badRequest "No fields to update"), db)
    else
      let users' := updateFirst (fun u => u.id == current_user.id)
        (applyProfileUpdate profile_update) db.users
      match users'.find? (fun u => u.id == current_user.id) with
      | some updated_user => (.ok updated_user, { db with users := users' })
      | none => (.error .internal, { db with users := users' })

/-- `class PasswordChange` from `schemas.py`. -/
structure PasswordChange where
  current_password : String
  new_password : String
  confirm_password : String
deriving DecidableEq, Repr

/-- The pydantic validation of `PasswordChange` (length bounds and the
`passwords_match` validator comparing `confirm_password` to `new_password`). -/
def PasswordChange.valid (pc : PasswordChange) : Bool :=
  6 ≤ pc.current_password.length && 6 ≤ pc.new_password.length &&
  6 ≤ pc.confirm_password.length && pc.confirm_password == pc.new_password

/-- `change_password` from `routers/profile.py` (PUT /profile/me/password),
behind the pydantic validation of `PasswordChange`: refetch the caller's
document, reject a wrong current password, reject a new password that
verifies against the existing digest, otherwise store the new digest. -/
def change_password (db : AppDB) (password_change : PasswordChange)
    (current_user_id : String) : Except Err String × AppDB :=
  if !password_change.valid then
    (.error (.validationError "Passwords do not match"), db)
  else
    match db.users.find? (fun u => u.id == current_user_id) with
    | none => (.error (.notFound "User not found"), db)
    | some user =>
      if !verify_password password_change.current_password user.hashed_password then
        (.error (.badRequest "Current password is incorrect"), db)
      else if verify_password password_change.new_password user.hashed_password then
        (.error (.badRequest "New password must be different from current password"), db)
      else
        let users' := updateFirst (fun u => u.id == current_user_id)
          (fun u => { u with
            hashed_password := get_password_hash password_change.new_password }) db.users
        (.ok "Password changed successfully", { db with users := users' })

/-- Sample admin, mirroring the `admin1` document seeded by `init_default_data`. -/
def adminUser : User :=
  { id := "admin1", name := "Sarah Admin", email := "admin@bugify.com",
    hashed_password := get_password_hash "admin123", role := .admin,
    joined_date := "2025-09-01" }

/-- Sample developer, mirroring the seeded `dev1` document. -/
def dev1User : User :=
  { id := "dev1", name := "John Developer", email := "dev1@bugify.com",
    hashed_password := get_password_hash "dev123", role := .developer,
    joined_date := "2025-09-10" }

/-- Sample developer, mirroring the seeded `dev2` document. -/
def dev2User : User :=
  { id := "dev2", name := "Emma Developer", email := "dev2@bugify.com",
    hashed_password := get_password_hash "dev123", role := .developer,
    joined_date := "2025-09-15" }

/-- Sample reporter, mirroring the seeded `user1` document. -/
def plainUser : User :=
  { id := "user1", name := "Mike User", email := "user@bugify.com",
    hashed_password := get_password_hash "user123", role := .user,
    joined_date := "2025-09-20" }

/-- Sample project, mirroring the seeded project 1. -/
def project1 : Project :=
  { id := 1, name := "Bugify Dashboard", description := "",
    created_by := "admin1", created_at := "2025-09-01" }

/-- Sample bug assigned to `dev1`, reported by `user1` (seeded bug 1, with an
apostrophe-free description). -/
def bug1 : Bug :=
  { id := 1, project_id := 1, project_name := "Bugify Dashboard",
    title := "Login button not working",
    description := "Login button on the dashboard does not trigger login action.",
    status := .Open, priority := .High, reported_by := "user1",
    assigned_to := some "dev1",
    created_at := "2025-10-07T10:00:00Z", updated_at := "2025-10-07T10:00:00Z" }

/-- Sample bug assigned to `dev1`, reported by `admin1` (seeded bug 2, with an
apostrophe-free description). -/
def bug2 : Bug :=
  { id := 2, project_id := 1, project_name := "Bugify Dashboard",
    title := "Dark mode not saving preference",
    description := "After refresh, the selected dark mode resets to light mode.",
    status := .InProgress, priority := .Medium, reported_by := "admin1",
    assigned_to := some "dev1",
    created_at := "2025-10-06T12:00:00Z", updated_at := "2025-10-07T09:30:00Z" }

/-- A database mirroring the seed state from `init_default_data`. -/
def seedDB : AppDB :=
  { users := [adminUser, dev1User, dev2User, plainUser],
    projects := [project1],
    bugs := [bug1, bug2] }

/-- Spec-side restatement (from spec section 4.3 and section 8): the dashboard
stats over a given list of bugs — total length and per-status counts.  Compared
below with what `get_dashboard_stats` computes for a `user`-role caller. -/
def statsOfList (l : List Bug) : DashboardStats :=
  { total := l.length,
    open_bugs := (l.filter (fun b => decide (b.status = .Open))).length,
    in_progress := (l.filter (fun b => decide (b.status = .InProgress))).length,
    resolved := (l.filter (fun b => decide (b.status = .Resolved))).length,
    closed := (l.filter (fun b => decide (b.status = .Closed))).length }

/-- An operation that writes the users collection: a registration or a profile
update (the only two mutators of stored emails). -/
inductive UserOp
  | reg (nowTs : Nat) (nowDate : String) (payload : UserRegister)
  | upd (current_user : User) (payload : ProfileUpdate)
deriving Repr

/-- Run one users-collection operation, keeping only the store it leaves. -/
def applyUserOp (db : AppDB) : UserOp → AppDB
  | .reg nowTs nowDate payload => (register db nowTs nowDate payload).2
  | .upd current_user payload => (update_my_profile db payload current_user).2

/-- Run a sequence of users-collection operations. -/
def runUserOps (ops : List UserOp) (db : AppDB) : AppDB := ops.foldl applyUserOp db

/-- Registration payload used by concrete witnesses. -/
def regPayload : UserRegister :=
  { name := "New Person", email := "NewUser@Example.COM", password := "abcdef",
    confirm_password := "abcdef", role := .user }

/-- The user document `register` stores for `regPayload` at timestamp 100. -/
def regStoredUser : User :=
  { id := "user100", name := "New Person", email := "newuser@example.com",
    hashed_password := get_password_hash "abcdef", role := .user,
    joined_date := "2025-10-08" }

/-- A register-then-update sequence used by the C10 witness: register with a
mixed-case email, then change the email to another mixed-case address. -/
def c10ops : List UserOp :=
  [.reg 100 "2025-10-08" regPayload,
   .upd regStoredUser { name := some "Renamed Person", email := some "MIXED@Case.COM" }]

/-- The stored document for the C10 witness user after `c10ops`. -/
def c10FinalUser : User :=
  { regStoredUser with name := "Renamed Person", email := "mixed@case.com" }

/-- Partial-update payload used by the C9 witness. -/
def c9upd : BugUpdate := { status := some .InProgress, assigned_to := none, priority := some .Low }

/-- Bug 1 after the C9 witness generic update. -/
def c9bugA : Bug :=
  { bug1 with
      status := .InProgress, priority := .Low,
      updated_at := "2025-10-09T00:00:00Z" }

/-- Store after the C9 witness generic update. -/
def c9dbA : AppDB := { seedDB with bugs := [c9bugA, bug2] }

/-- Bug 1 after the C9 witness admin assignment to dev2. -/
def c9bugB : Bug :=
  { bug1 with
      assigned_to := some "dev2",
      updated_at := "2025-10-09T01:00:00Z" }

/-- Store after the C9 witness admin assignment. -/
def c9dbB : AppDB := { seedDB with bugs := [c9bugB, bug2] }

/-- Bug 1 after the C9 witness developer status update by dev1. -/
def c9bugC : Bug :=
  { bug1 with
      status := .Resolved,
      updated_at := "2025-10-09T02:00:00Z" }

/-- Store after the C9 witness developer status update. -/
def c9dbC : AppDB := { seedDB with bugs := [c9bugC, bug2] }

/-- The users-collection write `change_password` performs on success:
replace the digest of the first user with the given id. -/
def setDigest (uid newpw : String) (users : List User) : List User :=
  updateFirst (fun v => v.id == uid)
    (fun v => { v with hashed_password := get_password_hash newpw }) users

lemma char_toLower_idem (c : Char) : c.toLower.toLower = c.toLower := by
  unfold Char.toLower
  by_cases h : c.toNat ≥ 65 ∧ c.toNat ≤ 90
  · simp only [h, if_pos, and_self]
    have hv : Nat.isValidChar (c.toNat + 32) := Or.inl (by omega)
    have ht : (Char.ofNat (c.toNat + 32)).toNat = c.toNat + 32 := by
      simp only [Char.ofNat, hv, dif_pos]
      rfl
    rw [if_neg]
    omega
  · rw [if_neg h, if_neg h]

lemma lower_idem (s : String) : lower (lower s) = lower s := by
  unfold lower
  simp only [List.map_map]
  congr 1
  apply List.map_congr_left
  intro c _
  exact char_toLower_idem c

lemma latestBug_eq_none {bs : List Bug} : latestBug bs = none ↔ bs = [] := by
  cases bs with
  | nil => simp [latestBug]
  | cons b bs =>
    simp only [latestBug]
    constructor
    · intro h
      cases hb : latestBug bs
      · simp [hb] at h
      · simp only [hb] at h
        split at h <;> simp_all
    · intro h
      exact absurd h (by simp)

lemma latestBug_id {bs : List Bug} {b : Bug} (h : latestBug bs = some b) :
    b.id = maxBugId bs := by
  induction bs generalizing b with
  | nil => simp [latestBug] at h
  | cons x xs ih =>
    simp only [latestBug] at h
    cases hx : latestBug xs with
    | none =>
      rw [hx] at h
      have hxs : xs = [] := latestBug_eq_none.mp hx
      subst hxs
      simp only [Option.some.injEq] at h
      subst h
      simp [maxBugId]
    | some m =>
      simp only [hx] at h
      have hm := ih hx
      by_cases hge : x.id ≥ m.id
      · rw [if_pos hge] at h
        simp only [Option.some.injEq] at h
        subst h
        simp only [maxBugId, List.foldr_cons]
        simp only [maxBugId] at hm
        omega
      · rw [if_neg hge] at h
        simp only [Option.some.injEq] at h
        subst h
        simp only [maxBugId, List.foldr_cons]
        simp only [maxBugId] at hm
        omega

lemma find?_unique {α : Type} {p : α → Bool} {l : List α} {x : α}
    (hx : x ∈ l) (hpx : p x = true) (huniq : ∀ y ∈ l, p y = true → y = x) :
    l.find? p = some x := by
  induction l with
  | nil => simp at hx
  | cons a as ih =>
    by_cases hpa : p a = true
    · have : a = x := huniq a (List.mem_cons_self a as) hpa
      subst this
      simp [List.find?, hpa]
    · have hax : x ∈ as := by
        cases List.mem_cons.mp hx with
        | inl h => exact absurd (h ▸ hpx) hpa
        | inr h => exact h
      have := ih hax (fun y hy hpy => huniq y (List.mem_cons_of_mem a hy) hpy)
      simp only [List.find?]
      rw [Bool.eq_false_iff.mpr hpa]
      exact this

lemma find?_updateFirst {α : Type} {p : α → Bool} {f : α → α} {l : List α} {x : α}
    (hpf : ∀ a, p a = true → p (f a) = true) (h : l.find? p = some x) :
    (updateFirst p f l).find? p = some (f x) := by
  induction l with
  | nil => simp [List.find?] at h
  | cons a as ih =>
    by_cases hpa : p a = true
    · simp only [List.find?, hpa] at h
      simp only [Option.some.injEq] at h
      subst h
      simp [updateFirst, hpa, List.find?, hpf a hpa]
    · simp only [List.find?] at h
      rw [Bool.eq_false_iff.mpr hpa] at h
      simp only [updateFirst]
      rw [if_neg (by simp [hpa])]
      simp only [List.find?]
      rw [Bool.eq_false_iff.mpr hpa]
      exact ih h

lemma mem_updateFirst {α : Type} {p : α → Bool} {f : α → α} {l : List α} {x : α}
    (hx : x ∈ updateFirst p f l) : x ∈ l ∨ ∃ y ∈ l, x = f y := by
  induction l with
  | nil => simp [updateFirst] at hx
  | cons a as ih =>
    simp only [updateFirst] at hx
    by_cases hpa : p a = true
    · rw [if_pos hpa] at hx
      cases List.mem_cons.mp hx with
      | inl h => exact Or.inr ⟨a, List.mem_cons_self a as, h⟩
      | inr h => exact Or.inl (List.mem_cons_of_mem a h)
    · rw [if_neg hpa] at hx
      cases List.mem_cons.mp hx with
      | inl h => exact Or.inl (h ▸ List.mem_cons_self a as)
      | inr h =>
        cases ih h with
        | inl hmem => exact Or.inl (List.mem_cons_of_mem a hmem)
        | inr hex =>
          obtain ⟨y, hy, hxy⟩ := hex
          exact Or.inr ⟨y, List.mem_cons_of_mem a hy, hxy⟩

lemma length_filter_and {α : Type} (p q : α → Bool) (l : List α) :
    (l.filter (fun a => p a && q a)).length = ((l.filter p).filter q).length := by
  induction l with
  | nil => rfl
  | cons a as ih =>
    by_cases hpa : p a = true
    · by_cases hqa : q a = true
      · simp [List.filter, hpa, hqa, ih]
      · simp [List.filter, hpa, Bool.eq_false_iff.mpr hqa, ih]
    · simp [List.filter, Bool.eq_false_iff.mpr hpa, ih]

/-- C4: for an admin caller, deleting a project that does not exist fails
NotFound with the store unchanged; deleting an existing project with a
positive dependent-bug count fails with an error carrying that count and the
project (whole store) unchanged; deleting an existing project with zero
dependent bugs succeeds and removes it. -/
theorem C4_theorem (db : AppDB) (project_id : Nat) (cu : User)
    (hadm : cu.role = .admin) :
    (db.projects.find? (fun p => p.id == project_id) = none →
      delete_project db project_id cu = (.error (.notFound "Project not found"), db)) ∧
    ((db.projects.find? (fun p => p.id == project_id)).isSome →
      (0 < countDocs (fun b => b.project_id == project_id) db.bugs →
        delete_project db project_id cu =
          (.error (.badRequest ("Cannot delete project. It has " ++
            toString (countDocs (fun b => b.project_id == project_id) db.bugs) ++
            " bug(s). Please delete or reassign the bugs first.")), db)) ∧
      (countDocs (fun b => b.project_id == project_id) db.bugs = 0 →
        delete_project db project_id cu =
          (.ok 1, { db with
            projects := eraseFirst (fun p => p.id == project_id) db.projects }))) := by
  refine ⟨?_, ?_⟩
  · intro h
    simp [delete_project, hadm, h]
  · intro hsome
    obtain ⟨p, hp⟩ := Option.isSome_iff_exists.mp hsome
    refine ⟨?_, ?_⟩
    · intro hpos
      simp [delete_project, hadm, hp, hpos]
    · intro hzero
      simp [delete_project, hadm, hp, hzero]

/-- C4 witness: on the seeded store, project 1 has two dependent bugs, so an
admin deleting it gets the refusal carrying the count 2 and the store is
unchanged. -/
theorem C4_witness :
    adminUser.role = Role.admin ∧
    countDocs (fun b => b.project_id == 1) seedDB.bugs = 2 ∧
    delete_project seedDB 1 adminUser =
      (.error (.badRequest ("Cannot delete project. It has " ++
        toString (countDocs (fun b => b.project_id == 1) seedDB.bugs) ++
        " bug(s). Please delete or reassign the bugs first.")), seedDB) :=
  ⟨rfl, by decide,
    ((C4_theorem seedDB 1 adminUser rfl).2 (by decide)).1 (by decide)⟩

/-- C5: for a stored user (stored lower-cased, uniquely holding its email), a
login with the correct password but a different role and a login with the
registered role but a wrong password both produce the very same 401 error
value — byte-identical response bodies, leaking nothing about which factor
failed. -/
theorem C5_theorem (db : AppDB) (u : User) (hu : u ∈ db.users)
    (hlow : lower u.email = u.email)
    (huniq : ∀ v ∈ db.users, v.email = u.email → v = u)
    (pw_ok pw_bad : String) (r : Role) (hr : r ≠ u.role)
    (hok : verify_password pw_ok u.hashed_password = true)
    (hbad : verify_password pw_bad u.hashed_password = false) :
    login db { email := u.email, password := pw_ok, role := r } =
      .error (.unauthorized "Invalid email, password, or role") ∧
    login db { email := u.email, password := pw_bad, role := u.role } =
      .error (.unauthorized "Invalid email, password, or role") := by
  constructor
  · have hnone : db.users.find?
        (fun v => v.email == lower u.email && decide (v.role = r)) = none := by
      rw [List.find?_eq_none]
      intro v hv
      simp only [Bool.and_eq_true, beq_iff_eq, decide_eq_true_eq, not_and]
      intro hve
      rw [hlow] at hve
      have := huniq v hv hve
      subst this
      exact fun hvr => hr (hvr.symm)
    simp [login, hnone]
  · have hfind : db.users.find?
        (fun v => v.email == lower u.email && decide (v.role = u.role)) = some u := by
      apply find?_unique hu
      · simp [hlow]
      · intro y hy hpy
        simp only [Bool.and_eq_true, beq_iff_eq, decide_eq_true_eq] at hpy
        exact huniq y hy (hlow ▸ hpy.1)
    simp [login, hfind, hbad]

/-- C5 witness: on the seeded store, a login for the admin email with the
correct password under role developer, and one under role admin with a wrong
password, yield the identical 401 error. -/
theorem C5_witness :
    login seedDB
        { email := "admin@bugify.com", password := "admin123", role := .developer } =
      .error (.unauthorized "Invalid email, password, or role") ∧
    login seedDB
        { email := "admin@bugify.com", password := "wrongpw", role := .admin } =
      .error (.unauthorized "Invalid email, password, or role") := by
  have h := C5_theorem seedDB adminUser (by decide) (by decide)
    (by decide) "admin123" "wrongpw" .developer (by decide) (by decide) (by decide)
  exact h

/-- C6: when some stored user holds the lower-cased form of an email, a
(structurally valid) registration under any case variant of that email fails
with the Conflict error and leaves the store — in particular the users
collection — unchanged. -/
theorem C6_theorem (db : AppDB) (nowTs : Nat) (nowDate : String)
    (user_data : UserRegister) (u : User) (hu : u ∈ db.users)
    (hvalid : user_data.valid = true)
    (hcase : lower user_data.email = u.email) :
    register db nowTs nowDate user_data =
      (.error (.badRequest "Email already registered"), db) := by
  have hsome : (db.users.find? (fun v => v.email == lower user_data.email)).isSome := by
    rw [List.find?_isSome]
    exact ⟨u, hu, by simp [hcase]⟩
  obtain ⟨w, hw⟩ := Option.isSome_iff_exists.mp hsome
  simp [register, hvalid, hw]

/-- C6 witness: registering a fresh mixed-case email on the seeded store
succeeds, and then registering its upper-cased variant (with a different
password) hits the Conflict and changes nothing — the spec scenario
register(e, p); register(upper(e), p') -> Conflict. -/
theorem C6_witness :
    (register seedDB 100 "2025-10-08" regPayload).1 =
      .ok (userResponse regStoredUser) ∧
    register (register seedDB 100 "2025-10-08" regPayload).2 101 "2025-10-08"
        { regPayload with
            email := "NEWUSER@EXAMPLE.COM", password := "zyxwvu",
            confirm_password := "zyxwvu" } =
      (.error (.badRequest "Email already registered"),
       (register seedDB 100 "2025-10-08" regPayload).2) := by
  constructor
  · decide
  · exact C6_theorem (register seedDB 100 "2025-10-08" regPayload).2 101 "2025-10-08"
      { regPayload with
          email := "NEWUSER@EXAMPLE.COM", password := "zyxwvu",
          confirm_password := "zyxwvu" }
      regStoredUser (by decide) (by decide) (by decide)

/-- C7: a (structurally valid) bug creation fails with ProjectNotFound and
adds no bug when the project id matches no project; when a project matches,
the created bug is appended with status Open, no assignee, the project's
current name denormalized, and id equal to the maximum existing bug id plus
one (so 1 on an empty collection). -/
theorem C7_theorem (db : AppDB) (now : String) (bug_data : BugCreate)
    (cu : User) (hvalid : bug_data.valid = true) :
    (db.projects.find? (fun p => p.id == bug_data.project_id) = none →
      create_bug db now bug_data cu = (.error (.notFound "Project not found"), db)) ∧
    (∀ pr, db.projects.find? (fun p => p.id == bug_data.project_id) = some pr →
      ∃ nb, create_bug db now bug_data cu = (.ok nb, { db with bugs := db.bugs ++ [nb] }) ∧
        nb.status = .Open ∧ nb.assigned_to = none ∧ nb.project_name = pr.name ∧
        nb.reported_by = cu.id ∧ nb.created_at = now ∧
        nb.id = maxBugId db.bugs + 1 ∧ (db.bugs = [] → nb.id = 1)) := by
  constructor
  · intro h
    simp [create_bug, hvalid, h]
  · intro pr hpr
    cases hl : latestBug db.bugs with
    | none =>
      have hempty : db.bugs = [] := latestBug_eq_none.mp hl
      refine ⟨{ id := 1, project_id := bug_data.project_id, project_name := pr.name,
                title := bug_data.title, description := bug_data.description,
                status := .Open, priority := bug_data.priority, reported_by := cu.id,
                assigned_to := none, created_at := now, updated_at := now },
              ?_, rfl, rfl, rfl, rfl, rfl, ?_, fun _ => rfl⟩
      · simp [create_bug, hvalid, hpr, hl]
      · simp [hempty, maxBugId]
    | some latest =>
      refine ⟨{ id := latest.id + 1, project_id := bug_data.project_id,
                project_name := pr.name, title := bug_data.title,
                description := bug_data.description, status := .Open,
                priority := bug_data.priority, reported_by := cu.id,
                assigned_to := none, created_at := now, updated_at := now },
              ?_, rfl, rfl, rfl, rfl, rfl, ?_, ?_⟩
      · simp [create_bug, hvalid, hpr, hl]
      · simp [latestBug_id hl]
      · intro hempty
        rw [hempty] at hl
        simp [latestBug] at hl

/-- C7 witness: creating a valid bug for existing project 1 on the seeded
store (whose max bug id is 2) yields a bug with id 3, status Open and no
assignee; creating one for absent project 99 fails and changes nothing. -/
theorem C7_witness :
    (∃ nb, create_bug seedDB "2025-10-08T02:00:00Z"
        { project_id := 1, title := "A new defect",
          description := "Something is broken somewhere.", priority := .Medium }
        plainUser =
        (.ok nb, { seedDB with bugs := seedDB.bugs ++ [nb] }) ∧
      nb.status = .Open ∧ nb.assigned_to = none ∧ nb.project_name = project1.name ∧
      nb.reported_by = plainUser.id ∧ nb.created_at = "2025-10-08T02:00:00Z" ∧
      nb.id = maxBugId seedDB.bugs + 1 ∧ (seedDB.bugs = [] → nb.id = 1)) ∧
    create_bug seedDB "2025-10-08T02:00:00Z"
        { project_id := 99, title := "A new defect",
          description := "Something is broken somewhere.", priority := .Medium }
        plainUser =
      (.error (.notFound "Project not found"), seedDB) := by
  constructor
  · exact (C7_theorem seedDB "2025-10-08T02:00:00Z"
      { project_id := 1, title := "A new defect",
        description := "Something is broken somewhere.", priority := .Medium }
      plainUser (by decide)).2 project1 (by decide)
  · exact (C7_theorem seedDB "2025-10-08T02:00:00Z"
      { project_id := 99, title := "A new defect",
        description := "Something is broken somewhere.", priority := .Medium }
      plainUser (by decide)).1 (by decide)

/-- C3: for a caller whose role is user, the dashboard bug listing returns
only bugs the caller reported — under every combination of project and status
filters — and the dashboard stats are exactly the total and per-status counts
over that reported_by-scoped set, not over all bugs. -/
theorem C3_theorem (db : AppDB) (project_id : Option Nat) (status : Option String)
    (cu : User) (hrole : cu.role = .user) :
    (∀ b ∈ get_bugs db project_id status cu, b.reported_by = cu.id) ∧
    get_dashboard_stats db cu =
      statsOfList (db.bugs.filter (fun b => b.reported_by == cu.id)) := by
  constructor
  · intro b hb
    have hq := List.of_mem_filter hb
    simp only [dashboardBugQuery, hrole, Bool.and_eq_true] at hq
    have := hq.2
    rw [if_pos (by decide)] at this
    exact beq_iff_eq.mp this
  · have hcu : decide (cu.role = Role.user) = true := by simp [hrole]
    simp only [get_dashboard_stats, statsOfList, countDocs, hcu,
      DashboardStats.mk.injEq, if_true, eq_self_iff_true, if_pos]
    refine ⟨trivial, ?_, ?_, ?_, ?_⟩ <;> exact length_filter_and _ _ db.bugs

/-- C3 witness: on the seeded store (bug 1 reported by user1, bug 2 by
admin1), the user1 listing with no filters contains only user1 bugs, and the
user1 stats equal the stats of the user1-reported subset: total 1, one Open
bug. -/
theorem C3_witness :
    (∀ b ∈ get_bugs seedDB none none plainUser, b.reported_by = plainUser.id) ∧
    get_dashboard_stats seedDB plainUser =
      statsOfList (seedDB.bugs.filter (fun b => b.reported_by == plainUser.id)) ∧
    get_dashboard_stats seedDB plainUser =
      { total := 1, open_bugs := 1, in_progress := 0, resolved := 0, closed := 0 } := by
  have h := C3_theorem seedDB none none plainUser rfl
  exact ⟨h.1, h.2, by decide⟩

/-- C8: change_password rejects with the store untouched when the new and
confirm passwords differ (a structural 422 whose outcome is the same for
every store, i.e. decided before the store is consulted), when the current
password fails verification against the stored digest, and when the new
password verifies against the existing digest; only otherwise does it replace
the caller's digest with the hash of the new password. -/
theorem C8_theorem (db : AppDB) (pc : PasswordChange) (uid : String) (u : User)
    (hfind : db.users.find? (fun v => v.id == uid) = some u) :
    (pc.confirm_password ≠ pc.new_password →
      change_password db pc uid = (.error (.validationError "Passwords do not match"), db) ∧
      ∀ db2 : AppDB, (change_password db pc uid).1 = (change_password db2 pc uid).1) ∧
    (pc.valid = true →
      (verify_password pc.current_password u.hashed_password = false →
        change_password db pc uid =
          (.error (.badRequest "Current password is incorrect"), db)) ∧
      (verify_password pc.current_password u.hashed_password = true →
        verify_password pc.new_password u.hashed_password = true →
        change_password db pc uid =
          (.error (.badRequest "New password must be different from current password"), db)) ∧
      (verify_password pc.current_password u.hashed_password = true →
        verify_password pc.new_password u.hashed_password = false →
        change_password db pc uid = (.ok "Password changed successfully",
          { db with users := setDigest uid pc.new_password db.users }) ∧
        (setDigest uid pc.new_password db.users).find? (fun v => v.id == uid) =
          some { u with hashed_password := get_password_hash pc.new_password })) := by
  constructor
  · intro hne
    have hinvalid : pc.valid = false := by
      simp only [PasswordChange.valid, Bool.and_eq_false_iff]
      right
      exact beq_eq_false_iff_ne.mpr hne
    constructor
    · simp [change_password, hinvalid]
    · intro db2
      simp [change_password, hinvalid]
  · intro hvalid
    refine ⟨?_, ?_, ?_⟩
    · intro hcur
      simp [change_password, hvalid, hfind, hcur]
    · intro hcur hnew
      simp [change_password, hvalid, hfind, hcur, hnew]
    · intro hcur hnew
      refine ⟨?_, ?_⟩
      · simp [change_password, setDigest, hvalid, hfind, hcur, hnew]
      · exact find?_updateFirst (fun a ha => ha) hfind

/-- C8 witness: on the seeded store, user1 with the correct current password
and a genuinely new password succeeds and the stored digest becomes the hash
of the new password; the same request with the new password equal to the
current one is rejected; and a mismatched confirmation is rejected
identically on two different stores. -/
theorem C8_witness :
    (change_password seedDB
        { current_password := "user123", new_password := "fresh99",
          confirm_password := "fresh99" } "user1").1 =
      .ok "Password changed successfully" ∧
    change_password seedDB
        { current_password := "user123", new_password := "user123",
          confirm_password := "user123" } "user1" =
      (.error (.badRequest "New password must be different from current password"),
       seedDB) ∧
    (change_password seedDB
        { current_password := "user123", new_password := "fresh99",
          confirm_password := "other77" } "user1").1 =
      (change_password { users := [], projects := [], bugs := [] }
        { current_password := "user123", new_password := "fresh99",
          confirm_password := "other77" } "user1").1 := by
  have h1 := C8_theorem seedDB
    { current_password := "user123", new_password := "fresh99",
      confirm_password := "fresh99" } "user1" plainUser (by decide)
  have h2 := C8_theorem seedDB
    { current_password := "user123", new_password := "user123",
      confirm_password := "user123" } "user1" plainUser (by decide)
  have h3 := C8_theorem seedDB
    { current_password := "user123", new_password := "fresh99",
      confirm_password := "other77" } "user1" plainUser (by decide)
  refine ⟨?_, ?_, ?_⟩
  · rw [((h1.2 (by decide)).2.2 (by decide) (by decide)).1]
  · exact (h2.2 (by decide)).2.1 (by decide) (by decide)
  · exact (h3.1 (by decide)).2 { users := [], projects := [], bugs := [] }

/-- C1 (counterexample): the claim that every status-update operation by a
non-assigned developer fails is false on the code.  On the seeded store, bug
1 is assigned to dev1 and dev2 is an authenticated developer, yet dev2
invoking the generic bug-update operation (PUT /bugs/1) with a status
payload succeeds and changes the status from Open to Closed — that endpoint
only denies role user. -/
theorem C1_counterexample :
    dev2User.role = Role.developer ∧
    bug1.id = 1 ∧ bug1 ∈ seedDB.bugs ∧
    bug1.assigned_to = some "dev1" ∧ dev2User.id = "dev2" ∧ bug1.status = .Open ∧
    update_bug seedDB "2025-10-08T00:00:00Z" 1
        { status := some .Closed, assigned_to := none, priority := none } dev2User =
      (.ok { bug1 with status := .Closed, updated_at := "2025-10-08T00:00:00Z" },
       { seedDB with
          bugs := [{ bug1 with status := .Closed, updated_at := "2025-10-08T00:00:00Z" },
                   bug2] }) := by
  decide

/-- C1 (amended): the information-hiding rule holds for the developer
status-update endpoint (PUT /mybugs/\x7bid\x7d/status): a developer who is not
the assignee of any bug with the given id gets exactly the 404 produced for a
nonexistent bug id, with the store unchanged, and the admin status endpoint
refuses developers outright; the generic PUT /bugs/\x7bid\x7d update, however,
only denies role user, so there a non-assigned developer can change status. -/
theorem C1_theorem (db : AppDB) (now : String) (bug_id : Nat)
    (status_update : BugStatusUpdate) (d : User) (hdev : d.role = .developer)
    (hnas : ∀ b ∈ db.bugs, b.id = bug_id → b.assigned_to ≠ some d.id) :
    update_my_bug_status db now bug_id status_update d =
      (.error (.notFound "Bug not found or not assigned to you"), db) ∧
    (∀ db2 : AppDB, (∀ b ∈ db2.bugs, b.id ≠ bug_id) →
      update_my_bug_status db2 now bug_id status_update d =
        (.error (.notFound "Bug not found or not assigned to you"), db2)) ∧
    update_bug_status_admin db now bug_id status_update d =
      (.error (.forbidden "Only admins can update bug status"), db) := by
  refine ⟨?_, ?_, ?_⟩
  · have hnone : db.bugs.find?
        (fun b => b.id == bug_id && decide (b.assigned_to = some d.id)) = none := by
      rw [List.find?_eq_none]
      intro b hb
      simp only [Bool.and_eq_true, beq_iff_eq, decide_eq_true_eq, not_and]
      exact fun hid => hnas b hb hid
    simp [update_my_bug_status, hdev, hnone]
  · intro db2 h2
    have hnone : db2.bugs.find?
        (fun b => b.id == bug_id && decide (b.assigned_to = some d.id)) = none := by
      rw [List.find?_eq_none]
      intro b hb
      simp only [Bool.and_eq_true, beq_iff_eq, decide_eq_true_eq, not_and]
      exact fun hid => absurd hid (h2 b hb)
    simp [update_my_bug_status, hdev, hnone]
  · have hna : decide (d.role = Role.admin) = false := by simp [hdev]
    simp [update_bug_status_admin, hna]

/-- C1 witness: on the seeded store (bug 1 assigned to dev1), dev2 calling
the developer status-update endpoint on bug 1 gets the same 404 error as on
the nonexistent bug id 99, with the store unchanged in both cases, and dev2
is refused by the admin status endpoint. -/
theorem C1_witness :
    update_my_bug_status seedDB "2025-10-08T00:00:00Z" 1 { status := .Closed } dev2User =
      (.error (.notFound "Bug not found or not assigned to you"), seedDB) ∧
    update_my_bug_status seedDB "2025-10-08T00:00:00Z" 99 { status := .Closed } dev2User =
      (.error (.notFound "Bug not found or not assigned to you"), seedDB) ∧
    update_bug_status_admin seedDB "2025-10-08T00:00:00Z" 1 { status := .Closed } dev2User =
      (.error (.forbidden "Only admins can update bug status"), seedDB) := by
  have h := C1_theorem seedDB "2025-10-08T00:00:00Z" 1 { status := .Closed } dev2User
    (by decide) (by decide)
  have h99 := C1_theorem seedDB "2025-10-08T00:00:00Z" 99 { status := .Closed } dev2User
    (by decide) (by decide)
  exact ⟨h.1, h99.2.1 seedDB (by decide), h.2.2⟩

/-- C2 (counterexample): the claim that every bug-mutating operation setting
a non-null assignee validates it against the developers is false on the code.
On the seeded store no user has id ghost, yet an admin invoking the generic
bug-update operation (PUT /bugs/1) with assigned_to ghost succeeds and leaves
bug 1 assigned to ghost — that endpoint performs no assignee validation, so
the stored invariant is broken rather than an InvalidAssignee/404 being
returned with the bug unchanged. -/
theorem C2_counterexample :
    adminUser.role = Role.admin ∧
    seedDB.users.find? (fun u => u.id == "ghost") = none ∧
    update_bug seedDB "2025-10-08T01:00:00Z" 1
        { status := none, assigned_to := some "ghost", priority := none } adminUser =
      (.ok { bug1 with assigned_to := some "ghost", updated_at := "2025-10-08T01:00:00Z" },
       { seedDB with
          bugs := [{ bug1 with assigned_to := some "ghost", updated_at := "2025-10-08T01:00:00Z" },
                   bug2] }) := by
  decide

/-- C2 (amended): only the admin assignment endpoint
(PUT /manage/bugs/\x7bid\x7d/assign) enforces the developer rule: for an
existing bug and a non-empty assignee id, it fails 404 Developer not found
with the store unchanged when no stored user has that id with role
developer, and on success stores exactly the requested assignee; the generic
PUT /bugs/\x7bid\x7d update sets assigned_to without any validation, so the
every-non-null-assignee-resolves-to-a-developer invariant does not hold
across all operations. -/
theorem C2_theorem (db : AppDB) (now : String) (bug_id : Nat) (v : String)
    (cu : User) (hadm : cu.role = .admin) (hv : v ≠ "")
    (hbug : (db.bugs.find? (fun b => b.id == bug_id)).isSome) :
    (db.users.find?
        (fun u => decide (some u.id = some v) && decide (u.role = Role.developer)) = none →
      assign_bug_to_developer db now bug_id { assigned_to := some v } cu =
        (.error (.notFound "Developer not found"), db)) ∧
    ((db.users.find?
        (fun u => decide (some u.id = some v) && decide (u.role = Role.developer))).isSome →
      ∃ b', (assign_bug_to_developer db now bug_id { assigned_to := some v } cu).1 =
          .ok b' ∧ b'.assigned_to = some v) := by
  obtain ⟨b0, hb0⟩ := Option.isSome_iff_exists.mp hbug
  have h1 : ¬((!decide (cu.role = Role.admin)) = true) := by simp [hadm]
  constructor
  · intro hnone
    have hcond : (strTruthy (some (α := String) v) &&
        !(db.users.find?
          (fun u => decide (some u.id = some v) && decide (u.role = Role.developer))).isSome)
        = true := by
      simp only [hnone, Option.isSome_none, Bool.not_false, Bool.and_true]
      simp [strTruthy, hv]
    unfold assign_bug_to_developer
    rw [if_neg h1]
    simp only [hb0]
    rw [if_pos hcond]
  · intro hdev
    obtain ⟨dv, hdv⟩ := Option.isSome_iff_exists.mp hdev
    have hrefetch := find?_updateFirst (f := fun b =>
        { b with assigned_to := some v, updated_at := now })
      (fun a ha => ha) hb0
    have hcond : ¬((strTruthy (some (α := String) v) &&
        !(db.users.find?
          (fun u => decide (some u.id = some v) && decide (u.role = Role.developer))).isSome)
        = true) := by
      simp only [hdv, Option.isSome_some, Bool.not_true, Bool.and_false]
      simp
    refine ⟨{ b0 with assigned_to := some v, updated_at := now }, ?_, rfl⟩
    unfold assign_bug_to_developer
    rw [if_neg h1]
    simp only [hb0]
    rw [if_neg hcond]
    simp only [hrefetch]

/-- C2 witness: on the seeded store, an admin assigning bug 1 to the
nonexistent id ghost through the manage endpoint gets 404 Developer not
found with the store unchanged, and assigning it to dev2 succeeds with the
bug stored as assigned to dev2. -/
theorem C2_witness :
    assign_bug_to_developer seedDB "2025-10-08T01:00:00Z" 1
        { assigned_to := some "ghost" } adminUser =
      (.error (.notFound "Developer not found"), seedDB) ∧
    ∃ b', (assign_bug_to_developer seedDB "2025-10-08T01:00:00Z" 1
        { assigned_to := some "dev2" } adminUser).1 = .ok b' ∧
      b'.assigned_to = some "dev2" := by
  constructor
  · exact (C2_theorem seedDB "2025-10-08T01:00:00Z" 1 "ghost" adminUser rfl
      (by decide) (by decide)).1 (by decide)
  · exact (C2_theorem seedDB "2025-10-08T01:00:00Z" 1 "dev2" adminUser rfl
      (by decide) (by decide)).2 (by decide)

/-- C9: every successful status or assignment change — through the generic
bug update, the admin assignment endpoint, or the developer status-update
endpoint — stamps the stored bug's updated_at with the current instant and
leaves every field outside the request payload and updated_at (id,
project_id, project_name, title, description, reported_by, created_at, and
for the narrower payloads also status, priority, assigned_to as applicable)
unchanged. -/
theorem C9_theorem :
    (∀ (db : AppDB) (now : String) (bug_id : Nat) (upd : BugUpdate) (cu : User)
        (r : Bug) (db' : AppDB),
      update_bug db now bug_id upd cu = (.ok r, db') →
      ∃ b, db.bugs.find? (fun x => x.id == bug_id) = some b ∧
        db'.bugs.find? (fun x => x.id == bug_id) = some r ∧
        r.updated_at = now ∧ r.id = b.id ∧ r.project_id = b.project_id ∧
        r.project_name = b.project_name ∧ r.title = b.title ∧
        r.description = b.description ∧ r.reported_by = b.reported_by ∧
        r.created_at = b.created_at) ∧
    (∀ (db : AppDB) (now : String) (bug_id : Nat) (asg : BugAssignment) (cu : User)
        (r : Bug) (db' : AppDB),
      assign_bug_to_developer db now bug_id asg cu = (.ok r, db') →
      ∃ b, db.bugs.find? (fun x => x.id == bug_id) = some b ∧
        db'.bugs.find? (fun x => x.id == bug_id) = some r ∧
        r.updated_at = now ∧ r.id = b.id ∧ r.project_id = b.project_id ∧
        r.project_name = b.project_name ∧ r.title = b.title ∧
        r.description = b.description ∧ r.reported_by = b.reported_by ∧
        r.created_at = b.created_at ∧ r.status = b.status ∧ r.priority = b.priority) ∧
    (∀ (db : AppDB) (now : String) (bug_id : Nat) (su : BugStatusUpdate) (cu : User)
        (r : Bug) (db' : AppDB),
      update_my_bug_status db now bug_id su cu = (.ok r, db') →
      ∃ b, db.bugs.find? (fun x => x.id == bug_id) = some b ∧
        db'.bugs.find? (fun x => x.id == bug_id) = some r ∧
        r.updated_at = now ∧ r.id = b.id ∧ r.project_id = b.project_id ∧
        r.project_name = b.project_name ∧ r.title = b.title ∧
        r.description = b.description ∧ r.reported_by = b.reported_by ∧
        r.created_at = b.created_at ∧ r.assigned_to = b.assigned_to ∧
        r.priority = b.priority) := by
  refine ⟨?_, ?_, ?_⟩
  · intro db now bug_id upd cu r db' heq
    unfold update_bug at heq
    cases hfind : db.bugs.find? (fun b => b.id == bug_id) with
    | none =>
      rw [hfind] at heq
      simp at heq
    | some b =>
      simp only [hfind] at heq
      by_cases hrole : decide (cu.role = Role.user) = true
      · rw [if_pos hrole] at heq
        simp at heq
      · rw [if_neg hrole] at heq
        have hrefetch := find?_updateFirst (f := applyBugUpdate upd now)
          (fun a ha => by simpa [applyBugUpdate] using ha) hfind
        simp only [hrefetch] at heq
        injection heq with h1 h2
        injection h1 with h1
        subst h1
        subst h2
        exact ⟨b, rfl, hrefetch, rfl, rfl, rfl, rfl, rfl, rfl, rfl, rfl⟩
  · intro db now bug_id asg cu r db' heq
    unfold assign_bug_to_developer at heq
    by_cases hadm : (!decide (cu.role = Role.admin)) = true
    · rw [if_pos hadm] at heq
      simp at heq
    · rw [if_neg hadm] at heq
      cases hfind : db.bugs.find? (fun b => b.id == bug_id) with
      | none =>
        rw [hfind] at heq
        simp at heq
      | some b =>
        simp only [hfind] at heq
        by_cases hc : (strTruthy asg.assigned_to &&
            !(db.users.find? (fun u =>
              decide (some u.id = asg.assigned_to) &&
              decide (u.role = Role.developer))).isSome) = true
        · rw [if_pos hc] at heq
          simp at heq
        · rw [if_neg hc] at heq
          have hrefetch := find?_updateFirst (f := fun b =>
              { b with assigned_to := asg.assigned_to, updated_at := now })
            (fun a ha => ha) hfind
          simp only [hrefetch] at heq
          injection heq with h1 h2
          injection h1 with h1
          subst h1
          subst h2
          exact ⟨b, rfl, hrefetch, rfl, rfl, rfl, rfl, rfl, rfl, rfl, rfl, rfl, rfl⟩
  · intro db now bug_id su cu r db' heq
    unfold update_my_bug_status at heq
    by_cases hdev : (!decide (cu.role = Role.developer)) = true
    · rw [if_pos hdev] at heq
      simp at heq
    · rw [if_neg hdev] at heq
      cases hfind0 : db.bugs.find?
          (fun b => b.id == bug_id && decide (b.assigned_to = some cu.id)) with
      | none =>
        rw [hfind0] at heq
        simp at heq
      | some b0 =>
        simp only [hfind0] at heq
        have hb0 := List.find?_some hfind0
        simp only [Bool.and_eq_true] at hb0
        have hsome1 : (db.bugs.find? (fun x => x.id == bug_id)).isSome := by
          rw [List.find?_isSome]
          exact ⟨b0, List.mem_of_find?_eq_some hfind0, hb0.1⟩
        obtain ⟨b1, hfind1⟩ := Option.isSome_iff_exists.mp hsome1
        have hrefetch := find?_updateFirst (f := fun b =>
            { b with status := su.status, updated_at := now })
          (fun a ha => ha) hfind1
        simp only [hrefetch] at heq
        injection heq with h1 h2
        injection h1 with h1
        subst h1
        subst h2
        exact ⟨b1, hfind1, hrefetch, rfl, rfl, rfl, rfl, rfl, rfl, rfl, rfl, rfl, rfl⟩

/-- C9 witness: three successful changes on seeded bug 1 — a generic update
of status and priority by the admin, an admin reassignment to dev2, and a
status update by the assigned developer dev1 — each stamp updated_at with
the passed instant and preserve the untouched fields of bug 1. -/
theorem C9_witness :
    (∃ b, seedDB.bugs.find? (fun x => x.id == 1) = some b ∧
      c9dbA.bugs.find? (fun x => x.id == 1) = some c9bugA ∧
      c9bugA.updated_at = "2025-10-09T00:00:00Z" ∧ c9bugA.id = b.id ∧
      c9bugA.project_id = b.project_id ∧ c9bugA.project_name = b.project_name ∧
      c9bugA.title = b.title ∧ c9bugA.description = b.description ∧
      c9bugA.reported_by = b.reported_by ∧ c9bugA.created_at = b.created_at) ∧
    (∃ b, seedDB.bugs.find? (fun x => x.id == 1) = some b ∧
      c9dbB.bugs.find? (fun x => x.id == 1) = some c9bugB ∧
      c9bugB.updated_at = "2025-10-09T01:00:00Z" ∧ c9bugB.id = b.id ∧
      c9bugB.project_id = b.project_id ∧ c9bugB.project_name = b.project_name ∧
      c9bugB.title = b.title ∧ c9bugB.description = b.description ∧
      c9bugB.reported_by = b.reported_by ∧ c9bugB.created_at = b.created_at ∧
      c9bugB.status = b.status ∧ c9bugB.priority = b.priority) ∧
    (∃ b, seedDB.bugs.find? (fun x => x.id == 1) = some b ∧
      c9dbC.bugs.find? (fun x => x.id == 1) = some c9bugC ∧
      c9bugC.updated_at = "2025-10-09T02:00:00Z" ∧ c9bugC.id = b.id ∧
      c9bugC.project_id = b.project_id ∧ c9bugC.project_name = b.project_name ∧
      c9bugC.title = b.title ∧ c9bugC.description = b.description ∧
      c9bugC.reported_by = b.reported_by ∧ c9bugC.created_at = b.created_at ∧
      c9bugC.assigned_to = b.assigned_to ∧ c9bugC.priority = b.priority) := by
  refine ⟨?_, ?_, ?_⟩
  · exact C9_theorem.1 seedDB "2025-10-09T00:00:00Z" 1 c9upd adminUser c9bugA c9dbA
      (by decide)
  · exact C9_theorem.2.1 seedDB "2025-10-09T01:00:00Z" 1 { assigned_to := some "dev2" }
      adminUser c9bugB c9dbB (by decide)
  · exact C9_theorem.2.2 seedDB "2025-10-09T02:00:00Z" 1 { status := .Resolved }
      dev1User c9bugC c9dbC (by decide)

lemma email_applyProfileUpdate (p : ProfileUpdate) (u : User) :
    (applyProfileUpdate p u).email = u.email ∨
    (applyProfileUpdate p u).email = lower (p.email.getD "") := by
  unfold applyProfileUpdate
  by_cases hse : strTruthy p.email = true
  · right
    simp [hse]
  · left
    by_cases hsn : strTruthy p.name = true
    · simp [hse, hsn]
    · simp [hse, hsn]

lemma lower_inv_applyUserOp (db : AppDB) (op : UserOp)
    (h : ∀ u ∈ db.users, lower u.email = u.email) :
    ∀ u ∈ (applyUserOp db op).users, lower u.email = u.email := by
  cases op with
  | reg nowTs nowDate payload =>
    intro u hu
    simp only [applyUserOp, register] at hu
    split at hu
    · exact h u hu
    · split at hu
      · exact h u hu
      · simp only [List.mem_append, List.mem_singleton] at hu
        cases hu with
        | inl hmem => exact h u hmem
        | inr hnew =>
          subst hnew
          exact lower_idem payload.email
  | upd current_user payload =>
    intro u hu
    simp only [applyUserOp, update_my_profile] at hu
    split at hu
    · exact h u hu
    · split at hu
      · exact h u hu
      · split at hu
        all_goals
          rcases mem_updateFirst hu with hmem | ⟨y, hy, rfl⟩
        · exact h u hmem
        · rcases email_applyProfileUpdate payload y with he | he
          · rw [he]
            exact h y hy
          · rw [he]
            exact lower_idem _
        · exact h u hmem
        · rcases email_applyProfileUpdate payload y with he | he
          · rw [he]
            exact h y hy
          · rw [he]
            exact lower_idem _

lemma lower_inv_runUserOps (ops : List UserOp) : ∀ (db : AppDB),
    (∀ u ∈ db.users, lower u.email = u.email) →
    ∀ u ∈ (runUserOps ops db).users, lower u.email = u.email := by
  induction ops with
  | nil =>
    intro db h
    exact h
  | cons op rest ih =>
    intro db h
    exact ih (applyUserOp db op) (lower_inv_applyUserOp db op h)

/-- C10: starting from a store whose user emails are all lower-cased (as the
seed data is), any sequence of registrations and profile updates preserves
that invariant — both writers lower-case the email before storing it — so no
two stored emails can differ only in letter case, a lookup by the lower-cased
form of any stored user's email succeeds and returns that email, and when
stored emails are unique it returns that very user. -/
theorem C10_theorem (ops : List UserOp) (db : AppDB)
    (hlow : ∀ u ∈ db.users, lower u.email = u.email) :
    (∀ u ∈ (runUserOps ops db).users, lower u.email = u.email) ∧
    (∀ u1 ∈ (runUserOps ops db).users, ∀ u2 ∈ (runUserOps ops db).users,
      lower u1.email = lower u2.email → u1.email = u2.email) ∧
    (∀ u ∈ (runUserOps ops db).users,
      ∃ v, (runUserOps ops db).users.find? (fun w => w.email == lower u.email) = some v ∧
        v.email = u.email) ∧
    (((runUserOps ops db).users.map User.email).Nodup →
      ∀ u ∈ (runUserOps ops db).users,
        (runUserOps ops db).users.find? (fun w => w.email == lower u.email) = some u) := by
  have hinv := lower_inv_runUserOps ops db hlow
  refine ⟨hinv, ?_, ?_, ?_⟩
  · intro u1 h1 u2 h2 he
    rw [← hinv u1 h1, he, hinv u2 h2]
  · intro u hu
    have hs : ((runUserOps ops db).users.find?
        (fun w => w.email == lower u.email)).isSome := by
      rw [List.find?_isSome]
      exact ⟨u, hu, by simp [hinv u hu]⟩
    obtain ⟨v, hv⟩ := Option.isSome_iff_exists.mp hs
    refine ⟨v, hv, ?_⟩
    have hpv := List.find?_some hv
    exact (beq_iff_eq.mp hpv).trans (hinv u hu)
  · intro hnodup u hu
    apply find?_unique hu
    · simp [hinv u hu]
    · intro y hy hpy
      have hye : y.email = u.email := (beq_iff_eq.mp hpy).trans (hinv u hu)
      exact List.inj_on_of_nodup_map hnodup hy hu hye

/-- C10 witness: registering a mixed-case email and then updating the profile
to another mixed-case email, on the seeded store, leaves every email
lower-cased and unique, and the lookup by the lower-cased stored email finds
exactly the stored user document. -/
theorem C10_witness :
    (runUserOps c10ops seedDB).users.find?
        (fun w => w.email == lower c10FinalUser.email) = some c10FinalUser :=
  (C10_theorem c10ops seedDB (by decide)).2.2.2 (by decide) c10FinalUser (by decide)

end Bugify
